import Mathlib

/-!
Shallow embedding of the fractalstudio rendering core.

Numeric code is embedded over `ℚ` (exact rational arithmetic) except for the
logarithmic smooth-coloring / Lyapunov-exponent outputs, which live in `ℝ`.
Each definition mirrors one function of the TypeScript source; the file ends
with theorems settling the specification claims.
-/

namespace FractalStudio

/-- A complex number as stored by the app: a pair of `real`/`imag` components
(`src/types/fractal.ts`). Coordinates are embedded as rationals. -/
structure Complex where
  real : ℚ
  imag : ℚ
  deriving DecidableEq, Repr

namespace ComplexMath

/-- Embedding of `ComplexMath.add` from `src/workers/fractal-worker.ts`. -/
def add (a b : Complex) : Complex :=
  { real := a.real + b.real, imag := a.imag + b.imag }

/-- Embedding of `ComplexMath.multiply` from `src/workers/fractal-worker.ts`. -/
def multiply (a b : Complex) : Complex :=
  { real := a.real * b.real - a.imag * b.imag
  , imag := a.real * b.imag + a.imag * b.real }

/-- Embedding of `ComplexMath.square` from `src/workers/fractal-worker.ts`. -/
def square (z : Complex) : Complex :=
  { real := z.real * z.real - z.imag * z.imag
  , imag := 2 * z.real * z.imag }

/-- Embedding of `ComplexMath.magnitudeSquared` from `src/workers/fractal-worker.ts`. -/
def magnitudeSquared (z : Complex) : ℚ :=
  z.real * z.real + z.imag * z.imag

/-- Embedding of `ComplexMath.abs` from `src/workers/fractal-worker.ts`. -/
def abs (z : Complex) : Complex :=
  { real := |z.real|, imag := |z.imag| }

end ComplexMath

namespace FractalCompute

/-- The escape-time loop of `FractalCompute.mandelbrot`
(`src/workers/fractal-worker.ts`): starting from iterate `z` at iteration
index `i` with `fuel` loop passes remaining, return `some (i, magSq)` when the
escape test `magnitudeSquared z > escapeRadius²` first fires (the data the
smooth-coloring formula consumes), `none` when the loop runs out (interior). -/
def escapeGo (c : Complex) (erSq : ℚ) : ℕ → Complex → ℕ → Option (ℕ × ℚ)
  | 0, _, _ => none
  | fuel + 1, z, i =>
    let m := ComplexMath.magnitudeSquared z
    if m > erSq then some (i, m)
    else escapeGo c erSq fuel (ComplexMath.add (ComplexMath.square z) c) (i + 1)

/-- Escape data of `FractalCompute.mandelbrot`: seed `z = 0`,
loop `while iteration < maxIterations`. -/
def mandelbrotRun (c : Complex) (maxIterations : ℕ) (escapeRadius : ℚ) :
    Option (ℕ × ℚ) :=
  escapeGo c (escapeRadius * escapeRadius) maxIterations ⟨0, 0⟩ 0

/-- The value returned by `FractalCompute.mandelbrot`: the smooth iteration
count `i + 1 - log2(log2 m * 0.5)` on escape, `maxIterations` otherwise. -/
noncomputable def mandelbrotValue (c : Complex) (maxIterations : ℕ)
    (escapeRadius : ℚ) : ℝ :=
  match mandelbrotRun c maxIterations escapeRadius with
  | some (i, m) => i + 1 - Real.logb 2 (Real.logb 2 (m : ℝ) * 0.5)
  | none => maxIterations

/-- Escape data of `FractalCompute.julia` (`src/workers/fractal-worker.ts`):
the seed is the sample coordinate `z`, the constant `c` is fixed. -/
def juliaRun (z c : Complex) (maxIterations : ℕ) (escapeRadius : ℚ) :
    Option (ℕ × ℚ) :=
  escapeGo c (escapeRadius * escapeRadius) maxIterations z 0

/-- The value returned by `FractalCompute.julia`. -/
noncomputable def juliaValue (z c : Complex) (maxIterations : ℕ)
    (escapeRadius : ℚ) : ℝ :=
  match juliaRun z c maxIterations escapeRadius with
  | some (i, m) => i + 1 - Real.logb 2 (Real.logb 2 (m : ℝ) * 0.5)
  | none => maxIterations

/-- Outcome of the Lyapunov accumulation loop: either an early `-10` return
(`diverged`) or the final accumulated log sum. -/
inductive LyapResult where
  | diverged : LyapResult
  | ok : ℝ → LyapResult

/-- The `for` loop of `FractalCompute.lyapunov`
(`src/workers/fractal-worker.ts`): at loop index `i` with iterate `x` and
accumulated sum `acc`, pick `r = a` on even `i` and `r = b` on odd `i`,
return `-10` when `x ≤ 0 ∨ x ≥ 1` or when `|r(1-2x)| < 1e-10`, otherwise add
`log |r(1-2x)|` and iterate `x ← r·x·(1-x)`. -/
noncomputable def lyapGo (a b : ℚ) : ℕ → ℕ → ℚ → ℝ → LyapResult
  | 0, _, _, acc => .ok acc
  | fuel + 1, i, x, acc =>
    let r : ℚ := if i % 2 = 0 then a else b
    if x ≤ 0 ∨ 1 ≤ x then .diverged
    else if |r * (1 - 2 * x)| < 1 / 10 ^ 10 then .diverged
    else lyapGo a b fuel (i + 1) (r * x * (1 - x))
        (acc + Real.log |((r * (1 - 2 * x) : ℚ) : ℝ)|)

/-- Embedding of `FractalCompute.lyapunov` (`src/workers/fractal-worker.ts`): `a`/`b` are
the mapped parameter-space coordinates; parameters outside `(0,4)` return `0`
up front; the loop starts at `x = 0.5` with an empty sum and the mean of the
accumulated sum is returned unless the loop bailed out with `-10`. -/
noncomputable def lyapunov (coord : Complex) (maxIterations : ℕ) : ℝ :=
  let a := coord.real
  let b := coord.imag
  if a ≤ 0 ∨ 4 ≤ a ∨ b ≤ 0 ∨ 4 ≤ b then 0
  else
    match lyapGo a b maxIterations 0 (1 / 2) 0 with
    | .diverged => -10
    | .ok s => s / maxIterations

end FractalCompute

/-- The `'julia'` branch of `computeFractalRegion`
(`src/workers/fractal-worker.ts`): when `params.juliaConstant` is unset the
sample value is `0`; otherwise `FractalCompute.julia` runs with the constant. -/
noncomputable def workerJuliaPixel (coord : Complex) (juliaConstant : Option Complex)
    (maxIterations : ℕ) (escapeRadius : ℚ) : ℝ :=
  match juliaConstant with
  | none => 0
  | some c => FractalCompute.juliaValue coord c maxIterations escapeRadius

/-- Embedding of `ViewportState` (`src/types/fractal.ts`): complex-plane center and zoom
plus the pixel dimensions of the drawing surface. -/
structure ViewportState where
  center : Complex
  zoom : ℚ
  width : ℚ
  height : ℚ
  aspectRatio : ℚ
  deriving DecidableEq, Repr

/-- Pixel-to-complex mapping of the worker's bulk path
(`computeFractalRegion`, `src/workers/fractal-worker.ts` lines 181-187):
normalize by width/height, subtract 0.5, multiply x by the aspect ratio
`width/height`, multiply both axes by `zoom`, translate by the center. -/
def workerPixelToComplex (pixelX pixelY : ℚ) (viewport : ViewportState) : Complex :=
  let normalizedX := pixelX / viewport.width
  let normalizedY := pixelY / viewport.height
  let aspectRatio := viewport.width / viewport.height
  { real := (normalizedX - 1/2) * aspectRatio * viewport.zoom + viewport.center.real
  , imag := (normalizedY - 1/2) * viewport.zoom + viewport.center.imag }

/-- Pixel-to-complex mapping of the GPU shader path (`main` of
`MANDELBROT_FRAGMENT_SHADER`, `src/lib/webgl/shaders.ts` lines 72-87):
`c = (uv - 0.5) * vec2(resolution.x/resolution.y, 1.0) / u_zoom + u_center`,
written here with the texture coordinate `uv` expressed as the normalized
pixel position `(pixelX/width, pixelY/height)`. -/
def shaderPixelToComplex (pixelX pixelY : ℚ) (viewport : ViewportState) : Complex :=
  let uvX := pixelX / viewport.width
  let uvY := pixelY / viewport.height
  let aspectX := viewport.width / viewport.height
  { real := (uvX - 1/2) * aspectX / viewport.zoom + viewport.center.real
  , imag := (uvY - 1/2) / viewport.zoom + viewport.center.imag }

/-- Embedding of `FractalRenderer.zoom(factor, centerX, centerY)` with an anchor point
(`src/lib/fractal-renderer.ts` lines 452-481): record the complex coordinate
under the cursor, divide the viewport zoom by `factor`, recompute the
coordinate under the cursor, and shift the center by the difference. -/
def rendererZoom (viewport : ViewportState) (factor : ℚ) (centerX centerY : ℚ) :
    ViewportState :=
  let normalizedX := centerX / viewport.width
  let normalizedY := centerY / viewport.height
  let aspectRatio := viewport.aspectRatio
  let complexX := (normalizedX - 1/2) * aspectRatio * viewport.zoom + viewport.center.real
  let complexY := (normalizedY - 1/2) * viewport.zoom + viewport.center.imag
  let zoom' := viewport.zoom / factor
  let newComplexX := (normalizedX - 1/2) * aspectRatio * zoom' + viewport.center.real
  let newComplexY := (normalizedY - 1/2) * zoom' + viewport.center.imag
  { viewport with
      zoom := zoom'
      center := { real := viewport.center.real + (complexX - newComplexX)
                , imag := viewport.center.imag + (complexY - newComplexY) } }

/-- The in-loop mapping of `FractalRenderer.zoom` (and of `computeFractalRegion`):
the multiply-by-zoom convention of the renderer and worker, as a function of a
pixel and a viewport. Identical to `workerPixelToComplex` except that it reads
the cached `aspectRatio` field instead of recomputing `width/height`. -/
def rendererPixelToComplex (pixelX pixelY : ℚ) (viewport : ViewportState) : Complex :=
  let normalizedX := pixelX / viewport.width
  let normalizedY := pixelY / viewport.height
  { real := (normalizedX - 1/2) * viewport.aspectRatio * viewport.zoom + viewport.center.real
  , imag := (normalizedY - 1/2) * viewport.zoom + viewport.center.imag }

/-- A JavaScript `number` as the validator observes it: `NaN`, `±Infinity`, or
a finite value (embedded as a rational). -/
inductive JSNum where
  | nan : JSNum
  | inf : JSNum
  | ninf : JSNum
  | fin : ℚ → JSNum
  deriving DecidableEq, Repr

namespace JSNum

/-- JavaScript `isNaN` on a number. -/
def isNaN : JSNum → Bool
  | .nan => true
  | _ => false

/-- The JavaScript comparison `x > 0` (`false` on `NaN`). -/
def gtZero : JSNum → Bool
  | .inf => true
  | .fin q => 0 < q
  | _ => false

/-- JavaScript `Math.min` on two numbers (`NaN` propagates). -/
def jsMin : JSNum → JSNum → JSNum
  | .nan, _ => .nan
  | _, .nan => .nan
  | .ninf, _ => .ninf
  | _, .ninf => .ninf
  | .inf, b => b
  | a, .inf => a
  | .fin p, .fin q => .fin (min p q)

/-- JavaScript `Math.max` on two numbers (`NaN` propagates). -/
def jsMax : JSNum → JSNum → JSNum
  | .nan, _ => .nan
  | _, .nan => .nan
  | .inf, _ => .inf
  | _, .inf => .inf
  | .ninf, b => b
  | a, .ninf => a
  | .fin p, .fin q => .fin (max p q)

end JSNum

/-- A complex number whose components may be `NaN`/`Infinity`, as the
validator receives them. -/
structure JSComplex where
  real : JSNum
  imag : JSNum
  deriving DecidableEq, Repr

/-- A partial `FractalParams` update (`Partial<FractalParams>`): every field
optional. -/
structure ParamsUpdate where
  fractalType : Option String := none
  escapeRadius : Option JSNum := none
  maxIterations : Option JSNum := none
  center : Option JSComplex := none
  zoom : Option JSNum := none
  colorPalette : Option String := none
  precision : Option String := none
  juliaConstant : Option JSComplex := none
  deriving DecidableEq, Repr

/-- A validated `FractalParams` object (`src/types/fractal.ts`), with the
numeric fields kept as JavaScript numbers. -/
structure FractalParams where
  fractalType : String
  escapeRadius : JSNum
  maxIterations : JSNum
  center : JSComplex
  zoom : JSNum
  colorPalette : String
  precision : String
  juliaConstant : Option JSComplex := none
  deriving DecidableEq, Repr

/-- Embedding of `FractalLoader.getAvailableTypes()` (`src/lib/fractals/loader.ts`): the
keys of the fractal registry, in registration order. -/
def availableTypes : List String :=
  ["mandelbrot", "julia", "burning-ship", "lyapunov", "tricorn", "celtic",
   "newton", "phoenix", "lambda", "perpendicular", "heart"]

/-- Embedding of `validateFractalParams` (`src/lib/fractal-presets-modular.ts` lines
92-145): every field failing its check is replaced by the documented default;
`zoom` is additionally clamped to `[0.1, 1000000]`; a `juliaConstant` is kept
only when both components are numbers that are not `NaN`. The `center` check
uses JavaScript `isNaN` only, so infinite components pass it. -/
def validateFractalParams (params : ParamsUpdate) : FractalParams :=
  { fractalType :=
      match params.fractalType with
      | some t => if t ∈ availableTypes then t else "mandelbrot"
      | none => "mandelbrot"
  , escapeRadius :=
      match params.escapeRadius with
      | some e => if e = .fin 2 ∨ e = .fin 4 ∨ e = .fin 8 then e else .fin 2
      | none => .fin 2
  , maxIterations :=
      match params.maxIterations with
      | some m =>
          if m = .fin 50 ∨ m = .fin 100 ∨ m = .fin 500 ∨ m = .fin 1000 then m
          else .fin 100
      | none => .fin 100
  , center :=
      match params.center with
      | some c =>
          if ¬ c.real.isNaN ∧ ¬ c.imag.isNaN then c
          else { real := .fin 0, imag := .fin 0 }
      | none => { real := .fin 0, imag := .fin 0 }
  , zoom :=
      match params.zoom with
      | some z =>
          if z.gtZero ∧ ¬ z.isNaN then JSNum.jsMax (.fin (1/10)) (JSNum.jsMin (.fin 1000000) z)
          else .fin 4
      | none => .fin 4
  , colorPalette :=
      match params.colorPalette with
      | some s => if s = "" then "viridis" else s
      | none => "viridis"
  , precision :=
      match params.precision with
      | some p => if p = "lowp" ∨ p = "mediump" ∨ p = "highp" then p else "highp"
      | none => "highp"
  , juliaConstant :=
      match params.juliaConstant with
      | some jc => if ¬ jc.real.isNaN ∧ ¬ jc.imag.isNaN then some jc else none
      | none => none }

/-- View a validated `FractalParams` back as a partial update, every field
present — what a second call to the validator receives. -/
def FractalParams.toUpdate (p : FractalParams) : ParamsUpdate :=
  { fractalType := some p.fractalType
  , escapeRadius := some p.escapeRadius
  , maxIterations := some p.maxIterations
  , center := some p.center
  , zoom := some p.zoom
  , colorPalette := some p.colorPalette
  , precision := some p.precision
  , juliaConstant := p.juliaConstant }

/-- One quality tier of the LOD configuration (`src/types/fractal.ts`). -/
structure QualitySetting where
  maxIterations : ℕ
  samplesPerPixel : ℕ
  precision : String
  deriving DecidableEq, Repr

namespace PerformanceMonitor

/-- Embedding of `lodConfig.zoomThresholds` of `PerformanceMonitor`. -/
def zoomThresholds : List ℚ := [1, 10, 100, 1000]

/-- Embedding of `lodConfig.qualitySettings` of `PerformanceMonitor`, highest quality
first. -/
def qualitySettings : List QualitySetting :=
  [ { maxIterations := 1000, samplesPerPixel := 4, precision := "highp" }
  , { maxIterations := 500, samplesPerPixel := 2, precision := "highp" }
  , { maxIterations := 100, samplesPerPixel := 1, precision := "mediump" }
  , { maxIterations := 50, samplesPerPixel := 1, precision := "lowp" } ]

/-- Embedding of `PerformanceMonitor.isPerformanceAcceptable()`:
`fps >= 58 && frameTime <= 17`. -/
def isPerformanceAcceptable (fps frameTime : ℚ) : Bool :=
  58 ≤ fps ∧ frameTime ≤ 17

/-- The zoom-threshold loop of `PerformanceMonitor.getRecommendedLOD`:
`lodLevel = i + 1` for every index `i` with `zoom > zoomThresholds[i]`,
starting from `0`. -/
def zoomBaseLOD (zoom : ℚ) : ℕ :=
  (zoomThresholds.enum).foldl
    (fun lodLevel it => if it.2 < zoom then it.1 + 1 else lodLevel) 0

/-- Embedding of `PerformanceMonitor.getRecommendedLOD(zoom)` reading metrics
`fps`/`frameTime`: baseline tier from the zoom ladder, then one tier down on
unacceptable performance (if a lower tier exists), else one tier up when
`fps > 65` (if a higher tier exists), finally clamped to the tier list. -/
def getRecommendedLOD (zoom fps frameTime : ℚ) : ℕ :=
  let lodLevel := zoomBaseLOD zoom
  let adjusted :=
    if ¬ isPerformanceAcceptable fps frameTime ∧ lodLevel < qualitySettings.length - 1 then
      lodLevel + 1
    else if 65 < fps ∧ 0 < lodLevel then lodLevel - 1
    else lodLevel
  min adjusted (qualitySettings.length - 1)

end PerformanceMonitor

/-- A hexadecimal digit value, or `none` for a non-hex character
(case-insensitive, as the `/i` regex flag allows). -/
def hexDigitVal (c : Char) : Option ℕ :=
  if '0' ≤ c ∧ c ≤ '9' then some (c.toNat - '0'.toNat)
  else if 'a' ≤ c ∧ c ≤ 'f' then some (c.toNat - 'a'.toNat + 10)
  else if 'A' ≤ c ∧ c ≤ 'F' then some (c.toNat - 'A'.toNat + 10)
  else none

/-- Parse two hex digits into a byte value. -/
def hexPair (c₁ c₂ : Char) : Option ℕ :=
  match hexDigitVal c₁, hexDigitVal c₂ with
  | some h, some l => some (16 * h + l)
  | _, _ => none

/-- Embedding of `hexToRgb` (`src/lib/color-palettes.ts`): match
`/^#?([a-f\d]{2})([a-f\d]{2})([a-f\d]{2})$/i` and parse the three pairs, or
`null`. -/
def hexToRgb (hex : String) : Option (ℕ × ℕ × ℕ) :=
  let cs := hex.toList
  let digits :=
    match cs with
    | '#' :: rest => some rest
    | rest => some rest
  match digits with
  | some [a, b, c, d, e, f] =>
    match hexPair a b, hexPair c d, hexPair e f with
    | some r, some g, some bl => some (r, g, bl)
    | _, _, _ => none
  | _ => none

/-- The lowercase hex digit character for a value below 16. -/
def hexChar (n : ℕ) : Char :=
  if n < 10 then Char.ofNat ('0'.toNat + n)
  else Char.ofNat ('a'.toNat + (n - 10))

/-- Two lowercase hex digits of a byte. -/
def byteHex (n : ℕ) : List Char :=
  [hexChar (n / 16 % 16), hexChar (n % 16)]

/-- Embedding of `ColorUtils.rgbToHex` (`src/lib/color-palettes.ts`):
`'#' + ((1<<24) + (r<<16) + (g<<8) + b).toString(16).slice(1)`, which for
byte-range components is `#` followed by six lowercase hex digits. -/
def rgbToHex (r g b : ℕ) : String :=
  ⟨'#' :: (byteHex r ++ byteHex g ++ byteHex b)⟩

/-- JavaScript `Math.round` for the nonnegative values produced here:
`⌊x + 1/2⌋`. -/
def jsRound (x : ℚ) : ℤ := ⌊x + 1/2⌋

/-- Embedding of `ColorUtils.interpolateRgb` (`src/lib/color-palettes.ts`): componentwise
`round(c1 + (c2 - c1) * t)`. -/
def interpolateRgb (c₁ c₂ : ℕ × ℕ × ℕ) (t : ℚ) : ℤ × ℤ × ℤ :=
  ( jsRound ((c₁.1 : ℚ) + ((c₂.1 : ℚ) - (c₁.1 : ℚ)) * t)
  , jsRound ((c₁.2.1 : ℚ) + ((c₂.2.1 : ℚ) - (c₁.2.1 : ℚ)) * t)
  , jsRound ((c₁.2.2 : ℚ) + ((c₂.2.2 : ℚ) - (c₁.2.2 : ℚ)) * t) )

/-- JavaScript `%` (fmod) for nonnegative dividend and positive divisor:
`x - s * ⌊x / s⌋`. -/
def jsFmod (x s : ℚ) : ℚ := x - s * ⌊x / s⌋

/-- The body of the gradient loop of `generateSmoothGradient` at index `i`:
the entry pushed for step `i`, or `none` when one of the two segment colors
fails to parse (the loop then pushes nothing). -/
def gradientEntry (colors : List String) (segmentSize : ℚ) (i : ℕ) : Option String :=
  let segmentIndex := (⌊(i : ℚ) / segmentSize⌋).toNat
  let segmentT := jsFmod (i : ℚ) segmentSize / segmentSize
  let color1Index := min segmentIndex (colors.length - 2)
  let color2Index := color1Index + 1
  match hexToRgb (colors.getD color1Index ""), hexToRgb (colors.getD color2Index "") with
  | some c₁, some c₂ =>
    let ip := interpolateRgb c₁ c₂ segmentT
    some (rgbToHex ip.1.toNat ip.2.1.toNat ip.2.2.toNat)
  | _, _ => none

/-- Embedding of `generateSmoothGradient(colors, steps)` (`src/lib/color-palettes.ts`):
lists of fewer than two colors are returned unchanged; otherwise the loop
pushes one interpolated entry per step (skipping a step when a segment color
does not parse). -/
def generateSmoothGradient (colors : List String) (steps : ℕ) : List String :=
  if colors.length < 2 then colors
  else
    let segmentSize : ℚ := (steps : ℚ) / ((colors.length : ℚ) - 1)
    (List.range steps).filterMap (gradientEntry colors segmentSize)

namespace NewtonFractal

/-- Embedding of `NewtonFractal.definition.formula` (`src/lib/fractals/newton.ts`): one
Newton step for `z³ - 1 = 0`, with the complex division skipped (returning `z`
unchanged) when the squared magnitude of the denominator `3z²` is below
`1e-10`. -/
def formula (z : Complex) : Complex :=
  let z3Real := z.real * z.real * z.real - 3 * z.real * z.imag * z.imag
  let z3Imag := 3 * z.real * z.real * z.imag - z.imag * z.imag * z.imag
  let numeratorReal := z3Real - 1
  let numeratorImag := z3Imag
  let z2Real := z.real * z.real - z.imag * z.imag
  let z2Imag := 2 * z.real * z.imag
  let denominatorReal := 3 * z2Real
  let denominatorImag := 3 * z2Imag
  let denomMagnitude := denominatorReal * denominatorReal + denominatorImag * denominatorImag
  if denomMagnitude < 1 / 10 ^ 10 then z
  else
    let divisionReal := (numeratorReal * denominatorReal + numeratorImag * denominatorImag) / denomMagnitude
    let divisionImag := (numeratorImag * denominatorReal - numeratorReal * denominatorImag) / denomMagnitude
    { real := z.real - divisionReal, imag := z.imag - divisionImag }

/-- The squared magnitude of the denominator `3z²` tested by
`NewtonFractal.definition.formula` before dividing. -/
def denomMagnitude (z : Complex) : ℚ :=
  let z2Real := z.real * z.real - z.imag * z.imag
  let z2Imag := 2 * z.real * z.imag
  (3 * z2Real) * (3 * z2Real) + (3 * z2Imag) * (3 * z2Imag)

end NewtonFractal

/-- Julia-constant selection in `FractalRenderer.updateUniforms`
(`src/lib/fractal-renderer.ts` lines 281-284) for `fractalType === 'julia'`:
`params.juliaConstant || { real: -0.7269, imag: 0.1889 }`. -/
def rendererJuliaUniform (juliaConstant : Option Complex) : Complex :=
  juliaConstant.getD { real := -7269/10000, imag := 1889/10000 }

/-- In-shader Julia-constant fallback (`JULIA_FRAGMENT_SHADER`,
`src/lib/webgl/shaders.ts` lines 111-115): when `length(u_juliaConstant)` is
zero — i.e. the uniform is the zero vector — substitute the default constant
`(-0.7269, 0.1889)`. -/
def shaderJuliaConstant (uniform : Complex) : Complex :=
  if uniform = { real := 0, imag := 0 } then { real := -7269/10000, imag := 1889/10000 }
  else uniform

/-- The canonical form `generateSmoothGradient` emits for a parseable color:
its parsed RGB bytes re-rendered by `rgbToHex` (lowercase, `#`-prefixed);
an unparseable color is left as given. -/
def canonicalHex (color : String) : String :=
  match hexToRgb color with
  | some (r, g, b) => rgbToHex r g b
  | none => color

/-- The invariant guaranteed for validator outputs: every field is one the
validator's checks accept unchanged. -/
def ValidParams (v : FractalParams) : Prop :=
  v.fractalType ∈ availableTypes
  ∧ (v.escapeRadius = .fin 2 ∨ v.escapeRadius = .fin 4 ∨ v.escapeRadius = .fin 8)
  ∧ (v.maxIterations = .fin 50 ∨ v.maxIterations = .fin 100
      ∨ v.maxIterations = .fin 500 ∨ v.maxIterations = .fin 1000)
  ∧ ¬ v.center.real.isNaN ∧ ¬ v.center.imag.isNaN
  ∧ (∃ q : ℚ, v.zoom = .fin q ∧ 1/10 ≤ q ∧ q ≤ 1000000)
  ∧ v.colorPalette ≠ ""
  ∧ (v.precision = "lowp" ∨ v.precision = "mediump" ∨ v.precision = "highp")
  ∧ (∀ jc, v.juliaConstant = some jc → ¬ jc.real.isNaN ∧ ¬ jc.imag.isNaN)

/-! ## Theorems settling the claims -/

/-- C10: the Newton iteration step is total and never divides by zero: when
the squared magnitude of the denominator `3z²` is below `1e-10` the step
returns `z` unchanged (so `z = 0` is a fixed point), and the division branch
is only reached with a provably nonzero denominator magnitude. -/
theorem newton_step_total (z : Complex) :
    (NewtonFractal.denomMagnitude z < 1 / 10 ^ 10 → NewtonFractal.formula z = z)
    ∧ NewtonFractal.formula { real := 0, imag := 0 } = { real := 0, imag := 0 }
    ∧ (¬ NewtonFractal.denomMagnitude z < 1 / 10 ^ 10 →
        NewtonFractal.denomMagnitude z ≠ 0) := by
  refine ⟨fun h => ?_, ?_, fun h h0 => h (by rw [h0]; norm_num)⟩
  · simp only [NewtonFractal.formula, NewtonFractal.denomMagnitude] at h ⊢
    rw [if_pos h]
  · simp only [NewtonFractal.formula]
    rw [if_pos (by norm_num)]

/-- Witness for C10: at `z = 0` the denominator check fires and the step
returns `z` unchanged. -/
theorem newton_step_total_witness :
    NewtonFractal.denomMagnitude { real := 0, imag := 0 } < 1 / 10 ^ 10
    ∧ NewtonFractal.formula { real := 0, imag := 0 } = { real := 0, imag := 0 } :=
  ⟨by norm_num [NewtonFractal.denomMagnitude],
   (newton_step_total { real := 0, imag := 0 }).1
     (by norm_num [NewtonFractal.denomMagnitude])⟩

/-- C4: after `FractalRenderer.zoom(factor, px, py)`, the complex coordinate
under the cursor pixel computed from the new viewport (by the renderer's own
pixel-to-complex convention) equals the coordinate computed from the old
viewport — exactly, in rational arithmetic. -/
theorem zoom_at_point_fixed (vp : ViewportState) (factor px py : ℚ)
    (hw : vp.width ≠ 0) (hh : vp.height ≠ 0) (hf : factor ≠ 0) :
    rendererPixelToComplex px py (rendererZoom vp factor px py) =
      rendererPixelToComplex px py vp := by
  simp only [rendererPixelToComplex, rendererZoom, Complex.mk.injEq]
  constructor <;> ring

/-- Witness for C4: a concrete zoom-at-point step on an 800×600 viewport
leaves the cursor coordinate fixed. -/
theorem zoom_at_point_fixed_witness :
    rendererPixelToComplex 100 50
        (rendererZoom
          { center := { real := -1/2, imag := 0 }, zoom := 4, width := 800,
            height := 600, aspectRatio := 4/3 } 2 100 50) =
      rendererPixelToComplex 100 50
        { center := { real := -1/2, imag := 0 }, zoom := 4, width := 800,
          height := 600, aspectRatio := 4/3 } :=
  zoom_at_point_fixed _ 2 100 50 (by norm_num) (by norm_num) (by norm_num)

/-- Counterexample for C1: the GPU shader's screen-to-complex mapping and the
worker's bulk mapping are not the same function — at the pixel `(1,1)` of a
1×1 viewport with zoom 2 the shader yields `1/4` (it divides by the zoom)
while the worker yields `1` (it multiplies by the zoom). -/
theorem shader_worker_mapping_differ :
    shaderPixelToComplex 1 1
        { center := { real := 0, imag := 0 }, zoom := 2, width := 1, height := 1,
          aspectRatio := 1 } ≠
      workerPixelToComplex 1 1
        { center := { real := 0, imag := 0 }, zoom := 2, width := 1, height := 1,
          aspectRatio := 1 } := by
  simp only [shaderPixelToComplex, workerPixelToComplex, Complex.mk.injEq, ne_eq]
  norm_num

/-- C1 (amended): both mappings normalize the pixel, subtract 0.5, scale the
horizontal axis by the aspect ratio and translate by the center, but the
shader divides by the zoom where the worker multiplies by it: the shader's
mapping at zoom `z` is the worker's mapping at zoom `z⁻¹`, and the two
coincide when the zoom is 1. -/
theorem shader_worker_zoom_reciprocal (px py : ℚ) (vp : ViewportState)
    (hz : vp.zoom ≠ 0) :
    shaderPixelToComplex px py vp =
      workerPixelToComplex px py { vp with zoom := vp.zoom⁻¹ }
    ∧ (vp.zoom = 1 →
        shaderPixelToComplex px py vp = workerPixelToComplex px py vp) := by
  constructor
  · simp only [shaderPixelToComplex, workerPixelToComplex, Complex.mk.injEq]
    constructor <;> ring
  · intro h1
    simp only [shaderPixelToComplex, workerPixelToComplex, h1, Complex.mk.injEq]
    constructor <;> ring

/-- Witness for C1 (amended): at zoom 1 the shader and worker mappings agree
on a concrete pixel of an 8×4 viewport. -/
theorem shader_worker_zoom_reciprocal_witness :
    shaderPixelToComplex 3 4
        { center := { real := 0, imag := 0 }, zoom := 1, width := 8, height := 4,
          aspectRatio := 2 } =
      workerPixelToComplex 3 4
        { center := { real := 0, imag := 0 }, zoom := 1, width := 8, height := 4,
          aspectRatio := 2 } :=
  (shader_worker_zoom_reciprocal 3 4 _ (by norm_num)).2 rfl

/-- For every zoom the baseline tier chosen by the zoom-threshold loop is at
most 4 (one past the last tier index, which the final clamp then repairs). -/
theorem zoomBaseLOD_le_four (zoom : ℚ) : PerformanceMonitor.zoomBaseLOD zoom ≤ 4 := by
  simp only [PerformanceMonitor.zoomBaseLOD, PerformanceMonitor.zoomThresholds,
    List.enum, List.foldl]
  split_ifs <;> omega

/-- C7: `getRecommendedLOD` always returns an index within the quality-tier
list bounds, and the performance adjustment moves the result by at most one
tier relative to the zoom-determined baseline tier. -/
theorem getRecommendedLOD_bounds (zoom fps frameTime : ℚ) :
    PerformanceMonitor.getRecommendedLOD zoom fps frameTime ≤
        PerformanceMonitor.qualitySettings.length - 1
    ∧ PerformanceMonitor.getRecommendedLOD zoom fps frameTime ≤
        PerformanceMonitor.zoomBaseLOD zoom + 1
    ∧ PerformanceMonitor.zoomBaseLOD zoom ≤
        PerformanceMonitor.getRecommendedLOD zoom fps frameTime + 1 := by
  have hle := zoomBaseLOD_le_four zoom
  have hlen : PerformanceMonitor.qualitySettings.length = 4 := rfl
  simp only [PerformanceMonitor.getRecommendedLOD, hlen]
  split_ifs <;> omega

/-- One unfolding step of the escape-time loop. -/
theorem escapeGo_succ (c : Complex) (erSq : ℚ) (fuel : ℕ) (z : Complex) (i : ℕ) :
    FractalCompute.escapeGo c erSq (fuel + 1) z i =
      if ComplexMath.magnitudeSquared z > erSq then
        some (i, ComplexMath.magnitudeSquared z)
      else
        FractalCompute.escapeGo c erSq fuel
          (ComplexMath.add (ComplexMath.square z) c) (i + 1) := rfl

/-- From the origin with `c = 0` the iterate never moves, so the escape loop
never fires for a nonnegative squared escape radius. -/
theorem escapeGo_origin (erSq : ℚ) (h : 0 ≤ erSq) (fuel i : ℕ) :
    FractalCompute.escapeGo { real := 0, imag := 0 } erSq fuel
      { real := 0, imag := 0 } i = none := by
  induction fuel generalizing i with
  | zero => rfl
  | succ n ih =>
    rw [escapeGo_succ]
    have hm : ¬ ComplexMath.magnitudeSquared { real := 0, imag := 0 } > erSq := by
      simp only [ComplexMath.magnitudeSquared]
      norm_num
      linarith
    rw [if_neg hm]
    have hz : ComplexMath.add (ComplexMath.square { real := 0, imag := 0 })
        { real := 0, imag := 0 } = { real := 0, imag := 0 } := by
      simp [ComplexMath.add, ComplexMath.square]
    rw [hz, ih]

/-- The Mandelbrot driver at `c = 0` runs out of iterations. -/
theorem mandelbrotRun_origin (n : ℕ) :
    FractalCompute.mandelbrotRun { real := 0, imag := 0 } n 2 = none :=
  escapeGo_origin (2 * 2) (by norm_num) n 0

/-- For any iteration budget of at least 3, the Mandelbrot driver at
`c = (2,0)` escapes at iteration 2 with squared magnitude 36: the squared
magnitude after one step is exactly 4, which the strict `> 4` test does not
catch. -/
theorem mandelbrotRun_two (k : ℕ) :
    FractalCompute.mandelbrotRun { real := 2, imag := 0 } (k + 3) 2 =
      some (2, 36) := by
  have h : k + 3 = k + 1 + 1 + 1 := by omega
  rw [FractalCompute.mandelbrotRun, h, escapeGo_succ]
  rw [if_neg (by norm_num [ComplexMath.magnitudeSquared])]
  rw [escapeGo_succ]
  rw [if_neg (by norm_num [ComplexMath.magnitudeSquared, ComplexMath.add,
    ComplexMath.square])]
  rw [escapeGo_succ]
  rw [if_pos (by norm_num [ComplexMath.magnitudeSquared, ComplexMath.add,
    ComplexMath.square])]
  norm_num [ComplexMath.magnitudeSquared, ComplexMath.add, ComplexMath.square]

/-- Counterexample for C3: `c = (2,0)` escapes at iteration 2, not at
iteration 0 or 1 — the magnitude after one step is exactly 2, which does not
exceed the strict escape test, and only the next step (magnitude 6) fires it. -/
theorem mandelbrot_two_escapes_at_two :
    (FractalCompute.mandelbrotRun { real := 2, imag := 0 } 50 2).map Prod.fst = some 2
    ∧ (2 : ℕ) ≠ 0 ∧ (2 : ℕ) ≠ 1 := by
  refine ⟨?_, by decide, by decide⟩
  rw [show (50 : ℕ) = 47 + 3 by norm_num, mandelbrotRun_two]
  rfl

/-- C3 (amended): for every admissible `maxIterations`, the Mandelbrot driver
returns exactly `maxIterations` at `c = (0,0)` (the point never escapes), and
at `c = (2,0)` the escape fires at iteration 2 (the strict test passes only
once the magnitude reaches 6). -/
theorem mandelbrot_escape_amended (n : ℕ)
    (hn : n ∈ ([50, 100, 500, 1000] : List ℕ)) :
    FractalCompute.mandelbrotValue { real := 0, imag := 0 } n 2 = n
    ∧ (FractalCompute.mandelbrotRun { real := 2, imag := 0 } n 2).map Prod.fst =
        some 2 := by
  constructor
  · simp [FractalCompute.mandelbrotValue, mandelbrotRun_origin n]
  · have h3 : ∃ k, n = k + 3 := by
      fin_cases hn
      exacts [⟨47, by norm_num⟩, ⟨97, by norm_num⟩, ⟨497, by norm_num⟩,
        ⟨997, by norm_num⟩]
    obtain ⟨k, rfl⟩ := h3
    rw [mandelbrotRun_two]
    rfl

/-- Witness for C3 (amended) at `maxIterations = 50`. -/
theorem mandelbrot_escape_amended_witness :
    (50 : ℕ) ∈ ([50, 100, 500, 1000] : List ℕ)
    ∧ (FractalCompute.mandelbrotValue { real := 0, imag := 0 } 50 2 = 50
      ∧ (FractalCompute.mandelbrotRun { real := 2, imag := 0 } 50 2).map Prod.fst =
          some 2) :=
  ⟨by decide, mandelbrot_escape_amended 50 (by decide)⟩

/-- One unfolding step of the Lyapunov accumulation loop. -/
theorem lyapGo_succ (a b : ℚ) (fuel i : ℕ) (x : ℚ) (acc : ℝ) :
    FractalCompute.lyapGo a b (fuel + 1) i x acc =
      (let r : ℚ := if i % 2 = 0 then a else b
       if x ≤ 0 ∨ 1 ≤ x then .diverged
       else if |r * (1 - 2 * x)| < 1 / 10 ^ 10 then .diverged
       else FractalCompute.lyapGo a b fuel (i + 1) (r * x * (1 - x))
          (acc + Real.log |((r * (1 - 2 * x) : ℚ) : ℝ)|)) := rfl

/-- Parameters outside the open interval `(0,4)` make the worker's Lyapunov
computation return `0` up front. -/
theorem lyapunov_out_of_range (a b : ℚ) (n : ℕ)
    (h : a ≤ 0 ∨ 4 ≤ a ∨ b ≤ 0 ∨ 4 ≤ b) :
    FractalCompute.lyapunov { real := a, imag := b } n = 0 := by
  simp only [FractalCompute.lyapunov]
  rw [if_pos h]

/-- For in-range parameters the first loop pass always bails out with `-10`:
the iterate starts at `x = 0.5`, so the first derivative `r(1-2x)` is `0` and
the `|derivative| < 1e-10` guard fires. -/
theorem lyapunov_in_range (a b : ℚ) (n : ℕ)
    (h : ¬ (a ≤ 0 ∨ 4 ≤ a ∨ b ≤ 0 ∨ 4 ≤ b)) (hn : 1 ≤ n) :
    FractalCompute.lyapunov { real := a, imag := b } n = -10 := by
  obtain ⟨m, rfl⟩ : ∃ m, n = m + 1 := ⟨n - 1, by omega⟩
  simp only [FractalCompute.lyapunov]
  rw [if_neg h, lyapGo_succ]
  norm_num

/-- Counterexample for C5: mapped parameters outside `(0,4)` produce the
sentinel `0`, not `-10` (the worker's up-front range check returns `0`), and
an in-range parameter pair produces `-10`. -/
theorem lyapunov_sentinel_counterexample :
    FractalCompute.lyapunov { real := 5, imag := 2 } 100 = 0
    ∧ FractalCompute.lyapunov { real := 2, imag := 2 } 100 = -10
    ∧ (0 : ℝ) ≠ -10 :=
  ⟨lyapunov_out_of_range 5 2 100 (by norm_num),
   lyapunov_in_range 2 2 100 (by norm_num) (by norm_num), by norm_num⟩

/-- C5 (amended): the worker's Lyapunov computation returns `0` (not `-10`)
when either mapped parameter lies outside `(0,4)`, checked once up front; for
in-range parameters the loop's `|r(1-2x)| < 1e-10` guard fires on the very
first pass (the seed `x = 0.5` zeroes the derivative), so every in-range
sample returns the divergence sentinel `-10` and the accumulated mean is
never reached for a positive iteration count. -/
theorem lyapunov_amended (a b : ℚ) (n : ℕ) (hn : 1 ≤ n) :
    FractalCompute.lyapunov { real := a, imag := b } n =
      if a ≤ 0 ∨ 4 ≤ a ∨ b ≤ 0 ∨ 4 ≤ b then 0 else -10 := by
  by_cases h : a ≤ 0 ∨ 4 ≤ a ∨ b ≤ 0 ∨ 4 ≤ b
  · rw [if_pos h]
    exact lyapunov_out_of_range a b n h
  · rw [if_neg h]
    exact lyapunov_in_range a b n h hn

/-- Witness for C5 (amended) at the in-range pair `(2,2)`. -/
theorem lyapunov_amended_witness :
    (1 : ℕ) ≤ 100 ∧ FractalCompute.lyapunov { real := 2, imag := 2 } 100 = -10 :=
  ⟨by norm_num, by rw [lyapunov_amended 2 2 100 (by norm_num)]; norm_num⟩

/-- The escape loop fires immediately on the sample coordinate `(3,0)` —
whatever the Julia constant — with squared magnitude 9. -/
theorem juliaRun_three (c : Complex) (k : ℕ) :
    FractalCompute.juliaRun { real := 3, imag := 0 } c (k + 1) 2 = some (0, 9) := by
  rw [FractalCompute.juliaRun, escapeGo_succ]
  rw [if_pos (by norm_num [ComplexMath.magnitudeSquared])]
  norm_num [ComplexMath.magnitudeSquared]

/-- The smooth escape value of the sample `(3,0)`, independent of the Julia
constant. -/
theorem juliaValue_three (c : Complex) (k : ℕ) :
    FractalCompute.juliaValue { real := 3, imag := 0 } c (k + 1) 2 =
      1 - Real.logb 2 (Real.logb 2 9 * 0.5) := by
  rw [FractalCompute.juliaValue, juliaRun_three]
  push_cast
  norm_num

/-- The smooth escape value at squared magnitude 9 is strictly positive. -/
theorem smoothValue_nine_pos : 0 < 1 - Real.logb 2 (Real.logb 2 9 * 0.5) := by
  have hb : (1:ℝ) < 2 := one_lt_two
  have h9 : Real.logb 2 9 < 4 := by
    rw [Real.logb_lt_iff_lt_rpow hb (by norm_num)]
    rw [show ((4:ℝ)) = ((4:ℕ):ℝ) by norm_num, Real.rpow_natCast]
    norm_num
  have hpos : 0 < Real.logb 2 9 := Real.logb_pos hb (by norm_num)
  have hlt : Real.logb 2 (Real.logb 2 9 * 0.5) < 1 := by
    rw [Real.logb_lt_iff_lt_rpow hb (by nlinarith), Real.rpow_one]
    nlinarith
  linarith

/-- Counterexample for C6: in the background worker, computing the Julia
sample `(3,0)` with `juliaConstant` unset yields `0`, while computing it with
the constant explicitly set to `(-0.7269, 0.1889)` yields a nonzero smooth
escape value — the worker does not fall back to the default constant. -/
theorem worker_julia_unset_counterexample :
    workerJuliaPixel { real := 3, imag := 0 } none 50 2 = 0
    ∧ workerJuliaPixel { real := 3, imag := 0 }
        (some { real := -7269/10000, imag := 1889/10000 }) 50 2 ≠ 0 := by
  refine ⟨rfl, ?_⟩
  show FractalCompute.juliaValue _ _ 50 2 ≠ 0
  rw [show (50 : ℕ) = 49 + 1 by norm_num, juliaValue_three]
  exact ne_of_gt smoothValue_nine_pos

/-- C6 (amended): when no Julia constant is set, the GPU path substitutes the
default `(-0.7269, 0.1889)` — both in `updateUniforms` and in the shader's
zero-vector fallback — while the background worker instead returns `0` for
every sample; an explicitly set constant is passed through unchanged by
`updateUniforms`. -/
theorem julia_default_amended (coord : Complex) (n : ℕ) (er : ℚ) :
    workerJuliaPixel coord none n er = 0
    ∧ rendererJuliaUniform none = { real := -7269/10000, imag := 1889/10000 }
    ∧ shaderJuliaConstant (rendererJuliaUniform none) =
        { real := -7269/10000, imag := 1889/10000 }
    ∧ (∀ c, rendererJuliaUniform (some c) = c) := by
  refine ⟨by rfl, by simp [rendererJuliaUniform], ?_, fun c => by rfl⟩
  rw [shaderJuliaConstant, if_neg (by simp [rendererJuliaUniform, Complex.mk.injEq])]
  simp [rendererJuliaUniform]

/-- A list lookup with a default at an in-bounds index is a member. -/
theorem getD_mem_of_lt {l : List String} {i : ℕ} (h : i < l.length) :
    l.getD i "" ∈ l := by
  rw [List.getD_eq_getElem l "" h]
  exact List.getElem_mem h

/-- Filtering a map that never drops keeps the length. -/
theorem filterMap_length_all_some {α β : Type} (f : α → Option β) :
    ∀ l : List α, (∀ x ∈ l, (f x).isSome) → (l.filterMap f).length = l.length := by
  intro l h
  induction l with
  | nil => rfl
  | cons a t ih =>
    rw [List.filterMap_cons]
    rcases ho : f a with _ | b
    · have := h a (by simp)
      rw [ho] at this
      simp at this
    · simp only [List.length_cons, ih (fun x hx => h x (by simp [hx]))]

/-- When every color of a two-or-more color list parses, each loop step of
`generateSmoothGradient` pushes an entry. -/
theorem gradientEntry_isSome (colors : List String) (s : ℚ) (i : ℕ)
    (hlen : 2 ≤ colors.length) (hall : ∀ c ∈ colors, (hexToRgb c).isSome) :
    (gradientEntry colors s i).isSome := by
  have h1 : min (⌊(i : ℚ) / s⌋).toNat (colors.length - 2) < colors.length := by omega
  have h2 : min (⌊(i : ℚ) / s⌋).toNat (colors.length - 2) + 1 < colors.length := by omega
  have p1 := hall _ (getD_mem_of_lt h1)
  have p2 := hall _ (getD_mem_of_lt h2)
  obtain ⟨v1, hv1⟩ := Option.isSome_iff_exists.mp p1
  obtain ⟨v2, hv2⟩ := Option.isSome_iff_exists.mp p2
  obtain ⟨a1, b1, c1⟩ := v1
  obtain ⟨a2, b2, c2⟩ := v2
  rw [gradientEntry]
  simp only [hv1, hv2, Option.isSome_some]

/-- JavaScript rounding of a whole number is that number. -/
theorem jsRound_natCast (n : ℕ) : jsRound (n : ℚ) = (n : ℤ) := by
  rw [jsRound]
  rw [Int.floor_eq_iff]
  constructor <;> push_cast <;> linarith

/-- Interpolating at parameter 0 returns the first color. -/
theorem interpolateRgb_zero (c₁ c₂ : ℕ × ℕ × ℕ) :
    interpolateRgb c₁ c₂ 0 = ((c₁.1 : ℤ), (c₁.2.1 : ℤ), (c₁.2.2 : ℤ)) := by
  simp [interpolateRgb, mul_zero, add_zero, jsRound_natCast]

/-- The first loop step (pixel index 0) of `generateSmoothGradient` emits the
first color, re-rendered in canonical lowercase hex. -/
theorem gradientEntry_zero (colors : List String) (s : ℚ)
    (hlen : 2 ≤ colors.length) (r g b r2 g2 b2 : ℕ)
    (hp : hexToRgb (colors.getD 0 "") = some (r, g, b))
    (hp2 : hexToRgb (colors.getD 1 "") = some (r2, g2, b2)) :
    gradientEntry colors s 0 = some (rgbToHex r g b) := by
  rw [gradientEntry]
  simp only [Nat.cast_zero, zero_div, Int.floor_zero, Int.toNat_zero, Nat.zero_min,
    jsFmod, Int.cast_zero, mul_zero, sub_zero, zero_add, hp, hp2,
    interpolateRgb_zero, Int.toNat_natCast]

/-- C8 (amended): for a list of two or more parseable colors,
`generateSmoothGradient` returns exactly `steps` entries and its first entry
is `colors[0]` re-rendered in canonical lowercase `#`-prefixed hex (string
equality with `colors[0]` itself therefore holds exactly when `colors[0]` is
already written that way); a single-color list is returned unchanged and an
empty list yields an empty result. -/
theorem generateSmoothGradient_amended (colors : List String) (steps : ℕ)
    (hall : ∀ c ∈ colors, (hexToRgb c).isSome) (hlen : 2 ≤ colors.length) :
    (generateSmoothGradient colors steps).length = steps
    ∧ (1 ≤ steps →
        (generateSmoothGradient colors steps).head? =
          some (canonicalHex (colors.getD 0 "")))
    ∧ (∀ c, generateSmoothGradient [c] steps = [c])
    ∧ generateSmoothGradient ([] : List String) steps = [] := by
  have hnot : ¬ colors.length < 2 := by omega
  refine ⟨?_, ?_, fun c => by rw [generateSmoothGradient, if_pos (by simp)],
    by rw [generateSmoothGradient, if_pos (by simp)]⟩
  · rw [generateSmoothGradient, if_neg hnot]
    rw [filterMap_length_all_some _ _
      (fun i _ => gradientEntry_isSome colors _ i hlen hall)]
    exact List.length_range steps
  · intro hsteps
    obtain ⟨k, rfl⟩ : ∃ k, steps = k + 1 := ⟨steps - 1, by omega⟩
    rw [generateSmoothGradient, if_neg hnot]
    have h0 : 0 < colors.length := by omega
    have h1 : 1 < colors.length := by omega
    obtain ⟨⟨r, g, b⟩, hp⟩ := Option.isSome_iff_exists.mp (hall _ (getD_mem_of_lt h0))
    obtain ⟨⟨r2, g2, b2⟩, hp2⟩ := Option.isSome_iff_exists.mp (hall _ (getD_mem_of_lt h1))
    rw [List.range_succ_eq_map, List.filterMap_cons]
    rw [gradientEntry_zero colors _ hlen r g b r2 g2 b2 hp hp2]
    simp only [List.head?_cons, canonicalHex, List.getD_eq_getElem?_getD] at hp ⊢
    rw [hp]

/-- Witness for C8 (amended): a concrete two-color gradient with 4 steps. -/
theorem generateSmoothGradient_amended_witness :
    (generateSmoothGradient ["#ff0000", "#00ff00"] 4).length = 4
    ∧ (generateSmoothGradient ["#ff0000", "#00ff00"] 4).head? =
        some (canonicalHex (["#ff0000", "#00ff00"].getD 0 "")) :=
  ⟨(generateSmoothGradient_amended ["#ff0000", "#00ff00"] 4 (by decide) (by decide)).1,
   (generateSmoothGradient_amended ["#ff0000", "#00ff00"] 4 (by decide)
     (by decide)).2.1 (by decide)⟩

/-- Counterexample for C8: the input colors `["#FF0000", "#00ff00"]` parse as
6-hex-digit colors, yet the first gradient entry is the lowercase rendering
`"#ff0000"`, which is not the string `colors[0] = "#FF0000"`. -/
theorem gradient_first_entry_case_counterexample :
    (generateSmoothGradient ["#FF0000", "#00ff00"] 4).head? = some "#ff0000"
    ∧ "#ff0000" ≠ "#FF0000"
    ∧ (hexToRgb "#FF0000").isSome ∧ (hexToRgb "#00ff00").isSome := by
  refine ⟨?_, by decide, by decide, by decide⟩
  rw [generateSmoothGradient, if_neg (by decide)]
  rw [show (4 : ℕ) = 3 + 1 by norm_num]
  rw [List.range_succ_eq_map, List.filterMap_cons]
  rw [gradientEntry_zero _ _ (by decide) 255 0 0 0 255 0 (by decide) (by decide)]
  decide

/-- Every validator output satisfies the validity invariant. -/
theorem validate_valid (p : ParamsUpdate) : ValidParams (validateFractalParams p) := by
  refine ⟨?_, ?_, ?_, ?_, ?_, ?_, ?_, ?_, ?_⟩
  · cases hf : p.fractalType with
    | none => simp only [validateFractalParams, hf]; decide
    | some t =>
      simp only [validateFractalParams, hf]
      split_ifs with h
      · exact h
      · decide
  · cases hf : p.escapeRadius with
    | none => simp [validateFractalParams, hf]
    | some e =>
      simp only [validateFractalParams, hf]
      split_ifs with h
      · exact h
      · simp
  · cases hf : p.maxIterations with
    | none => simp [validateFractalParams, hf]
    | some m =>
      simp only [validateFractalParams, hf]
      split_ifs with h
      · exact h
      · simp
  · cases hf : p.center with
    | none => simp [validateFractalParams, hf, JSNum.isNaN]
    | some c =>
      simp only [validateFractalParams, hf]
      split_ifs with h
      · exact h.1
      · simp [JSNum.isNaN]
  · cases hf : p.center with
    | none => simp [validateFractalParams, hf, JSNum.isNaN]
    | some c =>
      simp only [validateFractalParams, hf]
      split_ifs with h
      · exact h.2
      · simp [JSNum.isNaN]
  · cases hf : p.zoom with
    | none =>
      exact ⟨4, by simp [validateFractalParams, hf], by norm_num, by norm_num⟩
    | some z =>
      simp only [validateFractalParams, hf]
      split_ifs with h
      · cases z with
        | nan => simp [JSNum.gtZero] at h
        | inf =>
          refine ⟨1000000, ?_, by norm_num, by norm_num⟩
          show JSNum.jsMax (.fin (1/10)) (JSNum.jsMin (.fin 1000000) .inf) = _
          simp only [JSNum.jsMax, JSNum.jsMin]
          norm_num
        | ninf => simp [JSNum.gtZero] at h
        | fin q =>
          have hq : 0 < q := by
            have h1 := h.1
            simpa [JSNum.gtZero, decide_eq_true_eq] using h1
          refine ⟨max (1/10) (min 1000000 q), ?_, le_max_left _ _, ?_⟩
          · show JSNum.jsMax (.fin (1/10)) (JSNum.jsMin (.fin 1000000) (.fin q)) = _
            simp only [JSNum.jsMax, JSNum.jsMin]
          · exact max_le (by norm_num) (min_le_left _ _)
      · exact ⟨4, rfl, by norm_num, by norm_num⟩
  · cases hf : p.colorPalette with
    | none => simp [validateFractalParams, hf]
    | some s =>
      simp only [validateFractalParams, hf]
      split_ifs with h
      · simp
      · exact h
  · cases hf : p.precision with
    | none => simp [validateFractalParams, hf]
    | some pr =>
      simp only [validateFractalParams, hf]
      split_ifs with h
      · exact h
      · simp
  · intro jc hjc
    cases hf : p.juliaConstant with
    | none => simp [validateFractalParams, hf] at hjc
    | some j =>
      simp only [validateFractalParams, hf] at hjc
      split_ifs at hjc with h
      cases hjc
      exact h

/-- Re-validating a parameter object that satisfies the validity invariant
changes nothing. -/
theorem validate_of_valid (v : FractalParams) (h : ValidParams v) :
    validateFractalParams v.toUpdate = v := by
  obtain ⟨hft, her, hmi, hcr, hci, ⟨q, hz, hq1, hq2⟩, hcp, hpr, hjc⟩ := h
  cases v with
  | mk ft er mi ctr z cp prec jc =>
    dsimp only at hft her hmi hcr hci hz hcp hpr hjc
    subst hz
    simp only [FractalParams.toUpdate, validateFractalParams, FractalParams.mk.injEq]
    refine ⟨?_, ?_, ?_, ?_, ?_, ?_, ?_, ?_⟩
    · rw [if_pos hft]
    · rw [if_pos her]
    · rw [if_pos hmi]
    · rw [if_pos ⟨hcr, hci⟩]
    · rw [if_pos ?_]
      · show JSNum.jsMax (.fin (1/10)) (JSNum.jsMin (.fin 1000000) (.fin q)) = _
        simp only [JSNum.jsMax, JSNum.jsMin]
        rw [min_eq_right hq2, max_eq_right hq1]
      · refine ⟨?_, by simp [JSNum.isNaN]⟩
        simp only [JSNum.gtZero, decide_eq_true_eq]
        linarith
    · rw [if_neg hcp]
    · rw [if_pos hpr]
    · cases jc with
      | none => rfl
      | some jcv =>
        have hv := hjc jcv rfl
        dsimp only
        rw [if_pos hv]

/-- C9: the validator is idempotent — feeding a validator output back through
the validator returns it unchanged. -/
theorem validateFractalParams_idempotent (p : ParamsUpdate) :
    validateFractalParams (validateFractalParams p).toUpdate =
      validateFractalParams p :=
  validate_of_valid _ (validate_valid p)

/-- Counterexample for C2: a center with an infinite real component passes
the validator's `isNaN`-only check and is kept, not replaced by the default
center `(0,0)`. -/
theorem validate_keeps_infinite_center :
    (validateFractalParams
        { center := some { real := JSNum.inf, imag := JSNum.fin 0 } }).center
      = { real := JSNum.inf, imag := JSNum.fin 0 }
    ∧ ({ real := JSNum.inf, imag := JSNum.fin 0 } : JSComplex)
      ≠ { real := JSNum.fin 0, imag := JSNum.fin 0 } := by
  constructor
  · simp [validateFractalParams, JSNum.isNaN]
  · simp [JSComplex.mk.injEq]

/-- C2 (amended): each field failing validation is replaced by its documented
default and each valid field is preserved unchanged, field by field; for the
center the validator checks `isNaN` only, so a NaN component is replaced by
the default `(0,0)` while any center free of NaN components — including one
with infinite components — is preserved. -/
theorem validateFractalParams_fieldwise (p : ParamsUpdate) :
    (∀ c, p.center = some c → (c.real.isNaN ∨ c.imag.isNaN) →
      (validateFractalParams p).center = { real := JSNum.fin 0, imag := JSNum.fin 0 })
    ∧ (∀ c, p.center = some c → ¬ c.real.isNaN → ¬ c.imag.isNaN →
        (validateFractalParams p).center = c)
    ∧ (∀ e, p.escapeRadius = some e → (e = .fin 2 ∨ e = .fin 4 ∨ e = .fin 8) →
        (validateFractalParams p).escapeRadius = e)
    ∧ (∀ e, p.escapeRadius = some e → ¬ (e = .fin 2 ∨ e = .fin 4 ∨ e = .fin 8) →
        (validateFractalParams p).escapeRadius = .fin 2)
    ∧ (∀ m, p.maxIterations = some m →
        (m = .fin 50 ∨ m = .fin 100 ∨ m = .fin 500 ∨ m = .fin 1000) →
        (validateFractalParams p).maxIterations = m)
    ∧ (∀ m, p.maxIterations = some m →
        ¬ (m = .fin 50 ∨ m = .fin 100 ∨ m = .fin 500 ∨ m = .fin 1000) →
        (validateFractalParams p).maxIterations = .fin 100)
    ∧ (∀ z, p.zoom = some z → ¬ (z.gtZero ∧ ¬ z.isNaN) →
        (validateFractalParams p).zoom = .fin 4)
    ∧ (∀ q : ℚ, p.zoom = some (.fin q) → 1/10 ≤ q → q ≤ 1000000 →
        (validateFractalParams p).zoom = .fin q)
    ∧ (∀ t, p.fractalType = some t → t ∈ availableTypes →
        (validateFractalParams p).fractalType = t)
    ∧ (∀ pr, p.precision = some pr →
        (pr = "lowp" ∨ pr = "mediump" ∨ pr = "highp") →
        (validateFractalParams p).precision = pr) := by
  refine ⟨?_, ?_, ?_, ?_, ?_, ?_, ?_, ?_, ?_, ?_⟩
  · intro c hc hnan
    simp only [validateFractalParams, hc]
    rw [if_neg (by tauto)]
  · intro c hc h1 h2
    simp only [validateFractalParams, hc]
    rw [if_pos ⟨h1, h2⟩]
  · intro e he hval
    simp only [validateFractalParams, he]
    rw [if_pos hval]
  · intro e he hval
    simp only [validateFractalParams, he]
    rw [if_neg hval]
  · intro m hm hval
    simp only [validateFractalParams, hm]
    rw [if_pos hval]
  · intro m hm hval
    simp only [validateFractalParams, hm]
    rw [if_neg hval]
  · intro z hz hval
    simp only [validateFractalParams, hz]
    rw [if_neg hval]
  · intro q hzq h1 h2
    simp only [validateFractalParams, hzq]
    rw [if_pos ?_]
    · simp only [JSNum.jsMax, JSNum.jsMin]
      rw [min_eq_right h2, max_eq_right h1]
    · refine ⟨?_, by simp [JSNum.isNaN]⟩
      simp only [JSNum.gtZero, decide_eq_true_eq]
      linarith
  · intro t ht hval
    simp only [validateFractalParams, ht]
    rw [if_pos hval]
  · intro pr hpr hval
    simp only [validateFractalParams, hpr]
    rw [if_pos hval]

/-- Witness for C2 (amended): a concrete update with a NaN center and a valid
zoom has the center replaced by the default and the zoom preserved. -/
theorem validateFractalParams_fieldwise_witness :
    (validateFractalParams { center := some { real := JSNum.nan, imag := JSNum.fin 0 }, zoom := some (JSNum.fin 10) }).center
      = { real := JSNum.fin 0, imag := JSNum.fin 0 }
    ∧ (validateFractalParams { center := some { real := JSNum.nan, imag := JSNum.fin 0 }, zoom := some (JSNum.fin 10) }).zoom
      = JSNum.fin 10 :=
  ⟨(validateFractalParams_fieldwise _).1 _ rfl (Or.inl (by decide)),
   (validateFractalParams_fieldwise _).2.2.2.2.2.2.2.1 10 rfl (by norm_num)
     (by norm_num)⟩

end FractalStudio
